import Mathlib

/-!
Shallow embedding of the stamina-api service (src/main.py).

Python dicts (`user_data`, `share_codes`, `professional_accounts`) are
modelled as insertion-ordered association lists: updating an existing key
replaces its value in place, a new key is appended at the end, and lookup
returns the (unique) first binding.  `HTTPException` is modelled as an
error value carrying the status code and detail string; each stateful
handler returns its response (or error) together with the post-state,
since in the Python source mutations performed before a raise persist in
the module-level dicts.  Timestamps (`datetime.now(...)`) and the random
share-code samples (`secrets.choice`) enter the handlers as explicit
parameters.
-/

namespace StaminaAPI

/-- Lookup in an insertion-ordered association list (Python `d[k]` / `k in d`). -/
def dictGet? (k : String) : List (String × α) → Option α
  | [] => none
  | (k', v) :: rest => if k' = k then some v else dictGet? k rest

/-- Python `d[k] = v`: replace in place when the key exists, else append. -/
def dictInsert (k : String) (v : α) : List (String × α) → List (String × α)
  | [] => [(k, v)]
  | (k', v') :: rest => if k' = k then (k, v) :: rest else (k', v') :: dictInsert k v rest

/-- The per-user record stored by `store_stamina` (src/main.py lines 102-107). -/
structure Reading where
  staminaScore : Int
  color : String
  timestamp : String
  userID : String
deriving DecidableEq, Repr

/-- A professional account record (src/main.py lines 198-202). -/
structure ProfAccount where
  clients : List String
  subscription_tier : String
  max_clients : Int
deriving DecidableEq, Repr

/-- The three module-level stores of src/main.py. -/
structure State where
  user_data : List (String × Reading)
  share_codes : List (String × String)
  professional_accounts : List (String × ProfAccount)
deriving DecidableEq, Repr

def emptyState : State := ⟨[], [], []⟩

/-- `HTTPException(status_code, detail)`. -/
structure HErr where
  status_code : Nat
  detail : String
deriving DecidableEq, Repr

/-- Character class of the regex `[a-zA-Z0-9._-]` at src/main.py line 41. -/
def isUserIdChar (c : Char) : Bool :=
  c.isAlphanum || c == '.' || c == '_' || c == '-'

/-- src/main.py lines 38-41: `re.match` of `[a-zA-Z0-9._-]+` anchored by `$`,
conjoined with length > 5.  Python's `$` asserts at the end of the string or
just before one trailing newline, so the regex accepts a nonempty run of class
characters optionally followed by a single final newline; the length check
counts the full string, newline included. -/
def is_valid_user_id (user_id : String) : Bool :=
  let chars := user_id.toList
  let core := if chars.getLast? = some '\n' then chars.dropLast else chars
  (!core.isEmpty && core.all isUserIdChar) && user_id.length > 5

/-- src/main.py lines 43-57: threshold table, evaluated high to low. -/
def get_color (stamina_score : Int) : String :=
  if stamina_score ≥ 91 then "blue"
  else if stamina_score ≥ 86 then "green"
  else if stamina_score ≥ 76 then "green-yellow"
  else if stamina_score ≥ 51 then "yellow"
  else if stamina_score ≥ 40 then "yellow-orange"
  else if stamina_score ≥ 30 then "orange"
  else "red"

/-- Modelled from the spec: `scoreFromHeartRate` is described in spec §4.1 and §8
but is absent from src/main.py, which only accepts pre-computed scores from the
watch.  The anchor intervals the spec lists are reproduced exactly
(bpm<60→100, [68,72)→97, [72,76)→96, [92,96)→91, [131,133)→72, [159,161)→53,
[191,193)→15, [197,205)→10); any bpm outside every listed interval — in
particular bpm ≥ 205 and negative bpm — resolves to the 0 sentinel.  The spec
rounds the raw rate to an integer before lookup, so the model takes an integer. -/
def scoreFromHeartRate (bpm : Int) : Int :=
  if 0 ≤ bpm ∧ bpm < 60 then 100
  else if 68 ≤ bpm ∧ bpm < 72 then 97
  else if 72 ≤ bpm ∧ bpm < 76 then 96
  else if 92 ≤ bpm ∧ bpm < 96 then 91
  else if 131 ≤ bpm ∧ bpm < 133 then 72
  else if 159 ≤ bpm ∧ bpm < 161 then 53
  else if 191 ≤ bpm ∧ bpm < 193 then 15
  else if 197 ≤ bpm ∧ bpm < 205 then 10
  else 0

/-- Request body of POST /stamina (src/main.py lines 34-36). -/
structure StaminaData where
  staminaScore : Int
  userID : String
deriving DecidableEq, Repr

/-- src/main.py lines 86-115, POST /stamina.  The CST timestamp produced by
`datetime.now` is an explicit parameter.  On success the handler stores the
reading under the userID and answers a success message; validation failures
raise before any mutation, so the state is returned unchanged there. -/
def store_stamina (data : StaminaData) (timestamp : String) (s : State) :
    (Except HErr String) × State :=
  if ¬ (is_valid_user_id data.userID = true) then
    (.error ⟨400, "Invalid userID format"⟩, s)
  else if ¬ (0 ≤ data.staminaScore ∧ data.staminaScore ≤ 100) then
    (.error ⟨400, "Stamina score must be between 0-100"⟩, s)
  else
    let color := get_color data.staminaScore
    let result : Reading := ⟨data.staminaScore, color, timestamp, data.userID⟩
    (.ok "Stamina data stored", { s with user_data := dictInsert data.userID result s.user_data })

/-- src/main.py lines 117-130, GET /latest.  Read-only: no state is returned. -/
def latest (userID : String) (s : State) : Except HErr Reading :=
  if ¬ (is_valid_user_id userID = true) then
    .error ⟨400, "Invalid userID format"⟩
  else
    match dictGet? userID s.user_data with
    | none => .error ⟨404, "No data found for user. Send stamina to /stamina first."⟩
    | some r => .ok r

/-- Response body of POST /generate-share-code (src/main.py lines 166-184). -/
structure GenResp where
  share_code : String
  message : String
deriving DecidableEq, Repr

/-- The linear scan `for code, uid in share_codes.items()` of src/main.py
lines 160-164: first code mapped to this userID, in insertion order. -/
def findCodeFor (uid : String) : List (String × String) → Option String
  | [] => none
  | (code, u) :: rest => if u = uid then some code else findCodeFor uid rest

/-- The resampling loop of src/main.py lines 174-176: take candidates from the
random stream until one is not yet a registered code.  `none` models the loop
never finding a fresh code within the supplied stream. -/
def firstFresh (codes : List (String × String)) : List String → Option String
  | [] => none
  | c :: rest => if (dictGet? c codes).isSome then firstFresh codes rest else some c

/-- src/main.py lines 151-184, POST /generate-share-code.  The stream of
random candidate codes drawn by `generate_share_code()` is the explicit
parameter `cands`; the overall `none` means the uniqueness loop exhausted the
stream without finding a fresh code (the Python loop would keep sampling). -/
def generate_user_share_code (userID : String) (cands : List String) (s : State) :
    Option ((Except HErr GenResp) × State) :=
  if (dictGet? userID s.user_data).isNone then
    some (.error ⟨404, "User not found. Please use the app first to generate stamina data."⟩, s)
  else
    match findCodeFor userID s.share_codes with
    | some existing => some (.ok ⟨existing, "Using existing share code"⟩, s)
    | none =>
      match firstFresh s.share_codes cands with
      | none => none
      | some code =>
        some (.ok ⟨code, "Share code generated successfully"⟩,
          { s with share_codes := s.share_codes ++ [(code, userID)] })

/-- Number of live codes currently mapped to a given userID. -/
def countCodesFor (uid : String) (codes : List (String × String)) : Nat :=
  (codes.filter (fun p => p.2 = uid)).length

/-- Response body of POST /redeem-share-code.  The `already_added` answer
(src/main.py lines 208-212) carries no `max_clients` field while the success
answer (lines 221-226) does, hence the `Option`. -/
structure RedeemResp where
  status : String
  message : String
  client_count : Nat
  max_clients : Option Int
deriving DecidableEq, Repr

/-- The detail string of the 403 raised at src/main.py line 216. -/
def limitDetail (m : Int) : String :=
  "Client limit reached (" ++ toString m ++ "). Please upgrade your subscription."

/-- src/main.py lines 186-226, POST /redeem-share-code.  A new professional
account is registered before the quota check, so that registration survives a
later 403 (the Python handler mutates the module dict and then raises); for an
existing account the re-insertion of the identical record leaves the dict
unchanged. -/
def redeem_share_code (shareCode professionalID : String) (s : State) :
    (Except HErr RedeemResp) × State :=
  match dictGet? shareCode s.share_codes with
  | none => (.error ⟨404, "Invalid share code. Please check the code and try again."⟩, s)
  | some client_user_id =>
    let professional :=
      (dictGet? professionalID s.professional_accounts).getD ⟨[], "starter", 10⟩
    if client_user_id ∈ professional.clients then
      (.ok ⟨"already_added", "Client already in your monitoring list",
          professional.clients.length, none⟩,
        { s with professional_accounts :=
            dictInsert professionalID professional s.professional_accounts })
    else if professional.max_clients ≤ (professional.clients.length : Int) then
      (.error ⟨403, limitDetail professional.max_clients⟩,
        { s with professional_accounts :=
            dictInsert professionalID professional s.professional_accounts })
    else
      let updated : ProfAccount :=
        { professional with clients := professional.clients ++ [client_user_id] }
      (.ok ⟨"success", "Client added successfully",
          updated.clients.length, some professional.max_clients⟩,
        { s with professional_accounts :=
            dictInsert professionalID updated s.professional_accounts })

/-- One rendered dashboard row (src/main.py lines 245-251). -/
structure ClientRow where
  user_display : String
  stamina_score : Int
  color : String
  last_seen : String
  status : String
deriving DecidableEq, Repr

/-- GET /professional/dashboard response.  The unknown-professional branch
(src/main.py lines 233-237) answers without a `max_clients` field, the known
branch (lines 253-258) with one, hence the `Option`. -/
structure DashboardResp where
  clients : List ClientRow
  subscription_tier : String
  client_count : Nat
  max_clients : Option Int
deriving DecidableEq, Repr

/-- The privacy truncation `uid[:8] + "..."` applied at src/main.py line 246. -/
def truncate_id (uid : String) : String :=
  if uid.length > 8 then uid.take 8 ++ "..." else uid

/-- src/main.py lines 260-266: the stub always reports fresh data. -/
def is_data_stale (_timestamp_str : String) : Bool := false

/-- One iteration of the dashboard rendering loop (src/main.py lines 242-251). -/
def dash_step (s : State) (acc : List ClientRow) (client_id : String) : List ClientRow :=
  match dictGet? client_id s.user_data with
  | some data =>
    acc ++ [⟨truncate_id client_id, data.staminaScore, data.color, data.timestamp,
      if ¬ (is_data_stale data.timestamp = true) then "connected" else "disconnected"⟩]
  | none => acc

/-- src/main.py lines 228-258, GET /professional/dashboard/{professional_id}.
Read-only; the unchanged state is returned alongside to make the absence of
mutation part of the handler's type. -/
def get_professional_dashboard (professional_id : String) (s : State) :
    DashboardResp × State :=
  match dictGet? professional_id s.professional_accounts with
  | none => (⟨[], "none", 0, none⟩, s)
  | some professional =>
    let client_data := professional.clients.foldl (dash_step s) []
    (⟨client_data, professional.subscription_tier, client_data.length,
      some professional.max_clients⟩, s)

/-- The row rendered for a client that has a stored reading. -/
def render_row (client_id : String) (data : Reading) : ClientRow :=
  ⟨truncate_id client_id, data.staminaScore, data.color, data.timestamp,
    if ¬ (is_data_stale data.timestamp = true) then "connected" else "disconnected"⟩

/-- States reachable from the empty stores through the state-changing handlers
of src/main.py.  GET /latest, GET /health and the debug endpoints never write,
and GET /professional/dashboard returns its state unchanged, so they cannot
change the reachable set. -/
inductive Reachable : State → Prop where
  | init : Reachable emptyState
  | store (d : StaminaData) (ts : String) (s s' : State) (r : Except HErr String) :
      Reachable s → store_stamina d ts s = (r, s') → Reachable s'
  | gen (u : String) (cands : List String) (s s' : State) (r : Except HErr GenResp) :
      Reachable s → generate_user_share_code u cands s = some (r, s') → Reachable s'
  | redeem (code pid : String) (s s' : State) (r : Except HErr RedeemResp) :
      Reachable s → redeem_share_code code pid s = (r, s') → Reachable s'

/-- C1: for every integer score, get_color follows the threshold table evaluated
high to low with first match winning — score ≥ 91 gives "blue", ≥ 86 "green",
≥ 76 "green-yellow", ≥ 51 "yellow", ≥ 40 "yellow-orange", ≥ 30 "orange", and
anything lower "red". -/
theorem get_color_bands (score : Int) :
    (91 ≤ score → get_color score = "blue") ∧
    (86 ≤ score → score < 91 → get_color score = "green") ∧
    (76 ≤ score → score < 86 → get_color score = "green-yellow") ∧
    (51 ≤ score → score < 76 → get_color score = "yellow") ∧
    (40 ≤ score → score < 51 → get_color score = "yellow-orange") ∧
    (30 ≤ score → score < 40 → get_color score = "orange") ∧
    (score < 30 → get_color score = "red") := by
  refine ⟨?_, ?_, ?_, ?_, ?_, ?_, ?_⟩
  · intro h
    unfold get_color
    rw [if_pos (by omega : score ≥ 91)]
  · intro h1 h2
    unfold get_color
    rw [if_neg (by omega : ¬ score ≥ 91), if_pos (by omega : score ≥ 86)]
  · intro h1 h2
    unfold get_color
    rw [if_neg (by omega : ¬ score ≥ 91), if_neg (by omega : ¬ score ≥ 86),
      if_pos (by omega : score ≥ 76)]
  · intro h1 h2
    unfold get_color
    rw [if_neg (by omega : ¬ score ≥ 91), if_neg (by omega : ¬ score ≥ 86),
      if_neg (by omega : ¬ score ≥ 76), if_pos (by omega : score ≥ 51)]
  · intro h1 h2
    unfold get_color
    rw [if_neg (by omega : ¬ score ≥ 91), if_neg (by omega : ¬ score ≥ 86),
      if_neg (by omega : ¬ score ≥ 76), if_neg (by omega : ¬ score ≥ 51),
      if_pos (by omega : score ≥ 40)]
  · intro h1 h2
    unfold get_color
    rw [if_neg (by omega : ¬ score ≥ 91), if_neg (by omega : ¬ score ≥ 86),
      if_neg (by omega : ¬ score ≥ 76), if_neg (by omega : ¬ score ≥ 51),
      if_neg (by omega : ¬ score ≥ 40), if_pos (by omega : score ≥ 30)]
  · intro h
    unfold get_color
    rw [if_neg (by omega : ¬ score ≥ 91), if_neg (by omega : ¬ score ≥ 86),
      if_neg (by omega : ¬ score ≥ 76), if_neg (by omega : ¬ score ≥ 51),
      if_neg (by omega : ¬ score ≥ 40), if_neg (by omega : ¬ score ≥ 30)]

/-- Witness for C1 at the boundary values the claim names. -/
theorem get_color_bands_witness :
    get_color 91 = "blue" ∧ get_color 90 = "green" ∧ get_color 29 = "red" :=
  ⟨(get_color_bands 91).1 (by decide),
   (get_color_bands 90).2.1 (by decide) (by decide),
   (get_color_bands 29).2.2.2.2.2.2 (by decide)⟩

/-- C2: the spec-modelled heart-rate conversion gives score 100 on [0,60),
score 10 on [197,205), and the 0 sentinel at 205 and above or below 0. -/
theorem scoreFromHeartRate_bands (bpm : Int) :
    (0 ≤ bpm → bpm < 60 → scoreFromHeartRate bpm = 100) ∧
    (197 ≤ bpm → bpm < 205 → scoreFromHeartRate bpm = 10) ∧
    (205 ≤ bpm → scoreFromHeartRate bpm = 0) ∧
    (bpm < 0 → scoreFromHeartRate bpm = 0) := by
  refine ⟨?_, ?_, ?_, ?_⟩
  · intro h1 h2
    unfold scoreFromHeartRate
    rw [if_pos (⟨h1, h2⟩ : 0 ≤ bpm ∧ bpm < 60)]
  · intro h1 h2
    unfold scoreFromHeartRate
    rw [if_neg (by omega : ¬ (0 ≤ bpm ∧ bpm < 60)),
      if_neg (by omega : ¬ (68 ≤ bpm ∧ bpm < 72)),
      if_neg (by omega : ¬ (72 ≤ bpm ∧ bpm < 76)),
      if_neg (by omega : ¬ (92 ≤ bpm ∧ bpm < 96)),
      if_neg (by omega : ¬ (131 ≤ bpm ∧ bpm < 133)),
      if_neg (by omega : ¬ (159 ≤ bpm ∧ bpm < 161)),
      if_neg (by omega : ¬ (191 ≤ bpm ∧ bpm < 193)),
      if_pos (⟨h1, h2⟩ : 197 ≤ bpm ∧ bpm < 205)]
  · intro h
    unfold scoreFromHeartRate
    rw [if_neg (by omega : ¬ (0 ≤ bpm ∧ bpm < 60)),
      if_neg (by omega : ¬ (68 ≤ bpm ∧ bpm < 72)),
      if_neg (by omega : ¬ (72 ≤ bpm ∧ bpm < 76)),
      if_neg (by omega : ¬ (92 ≤ bpm ∧ bpm < 96)),
      if_neg (by omega : ¬ (131 ≤ bpm ∧ bpm < 133)),
      if_neg (by omega : ¬ (159 ≤ bpm ∧ bpm < 161)),
      if_neg (by omega : ¬ (191 ≤ bpm ∧ bpm < 193)),
      if_neg (by omega : ¬ (197 ≤ bpm ∧ bpm < 205))]
  · intro h
    unfold scoreFromHeartRate
    rw [if_neg (by omega : ¬ (0 ≤ bpm ∧ bpm < 60)),
      if_neg (by omega : ¬ (68 ≤ bpm ∧ bpm < 72)),
      if_neg (by omega : ¬ (72 ≤ bpm ∧ bpm < 76)),
      if_neg (by omega : ¬ (92 ≤ bpm ∧ bpm < 96)),
      if_neg (by omega : ¬ (131 ≤ bpm ∧ bpm < 133)),
      if_neg (by omega : ¬ (159 ≤ bpm ∧ bpm < 161)),
      if_neg (by omega : ¬ (191 ≤ bpm ∧ bpm < 193)),
      if_neg (by omega : ¬ (197 ≤ bpm ∧ bpm < 205))]

/-- Witness for C2 at one point of each band the claim names. -/
theorem scoreFromHeartRate_bands_witness :
    scoreFromHeartRate 30 = 100 ∧ scoreFromHeartRate 200 = 10 ∧
    scoreFromHeartRate 210 = 0 ∧ scoreFromHeartRate (-5) = 0 :=
  ⟨(scoreFromHeartRate_bands 30).1 (by decide) (by decide),
   (scoreFromHeartRate_bands 200).2.1 (by decide) (by decide),
   (scoreFromHeartRate_bands 210).2.2.1 (by decide),
   (scoreFromHeartRate_bands (-5)).2.2.2 (by decide)⟩

theorem dictGet?_insert_self (k : String) (v : α) (l : List (String × α)) :
    dictGet? k (dictInsert k v l) = some v := by
  induction l with
  | nil => simp [dictInsert, dictGet?]
  | cons p rest ih =>
    by_cases h : p.1 = k
    · simp [dictInsert, dictGet?, h]
    · simp only [dictInsert, dictGet?]
      rw [if_neg h]
      simp only [dictGet?]
      rw [if_neg h]
      exact ih

/-- C3: for every format-valid userID and in-range score, a successful
POST /stamina followed immediately by GET /latest for the same user returns
exactly the stored Reading: same staminaScore, the color derived from it, the
capture timestamp, and the userID. -/
theorem store_then_latest (u : String) (score : Int) (ts : String) (s : State)
    (hu : is_valid_user_id u = true) (hs : 0 ≤ score ∧ score ≤ 100) :
    (store_stamina ⟨score, u⟩ ts s).1 = .ok "Stamina data stored" ∧
    latest u (store_stamina ⟨score, u⟩ ts s).2 =
      .ok ⟨score, get_color score, ts, u⟩ := by
  have hstore : store_stamina ⟨score, u⟩ ts s =
      (.ok "Stamina data stored",
        { s with user_data := dictInsert u ⟨score, get_color score, ts, u⟩ s.user_data }) := by
    unfold store_stamina
    rw [if_neg (by simp [hu]), if_neg (by simp [hs])]
  refine ⟨by rw [hstore], ?_⟩
  rw [hstore]
  unfold latest
  rw [if_neg (by simp [hu])]
  simp only [dictGet?_insert_self]

/-- Witness for C3: store a score of 96 for a concrete valid user on the empty
store and read it straight back. -/
theorem store_then_latest_witness :
    (store_stamina ⟨96, "alice123456"⟩ "t0" emptyState).1 = .ok "Stamina data stored" ∧
    latest "alice123456" (store_stamina ⟨96, "alice123456"⟩ "t0" emptyState).2 =
      .ok ⟨96, get_color 96, "t0", "alice123456"⟩ :=
  store_then_latest "alice123456" 96 "t0" emptyState (by decide) (by decide)

theorem findCodeFor_none_iff (uid : String) (l : List (String × String)) :
    findCodeFor uid l = none ↔ countCodesFor uid l = 0 := by
  induction l with
  | nil => simp [findCodeFor, countCodesFor]
  | cons p rest ih =>
    obtain ⟨c, u2⟩ := p
    by_cases h : u2 = uid
    · simp [findCodeFor, countCodesFor, List.filter_cons, h]
    · simpa [findCodeFor, countCodesFor, List.filter_cons, h] using ih

theorem findCodeFor_append_self (uid code : String) (l : List (String × String))
    (h : findCodeFor uid l = none) :
    findCodeFor uid (l ++ [(code, uid)]) = some code := by
  induction l with
  | nil => simp [findCodeFor]
  | cons p rest ih =>
    obtain ⟨c, u2⟩ := p
    by_cases hp : u2 = uid
    · simp [findCodeFor, hp] at h
    · simp only [findCodeFor, hp, if_false] at h
      simp only [List.cons_append, findCodeFor, if_neg hp]
      exact ih h

theorem countCodesFor_append (uid code other : String) (l : List (String × String)) :
    countCodesFor uid (l ++ [(code, other)]) =
      countCodesFor uid l + (if other = uid then 1 else 0) := by
  by_cases h : other = uid <;>
    simp [countCodesFor, List.filter_append, h]

theorem findCodeFor_mem (uid c : String) (l : List (String × String))
    (h : findCodeFor uid l = some c) : (c, uid) ∈ l := by
  induction l with
  | nil => simp [findCodeFor] at h
  | cons p rest ih =>
    obtain ⟨c', u2⟩ := p
    by_cases hp : u2 = uid
    · simp only [findCodeFor] at h
      rw [if_pos hp] at h
      obtain rfl := Option.some.inj h
      subst hp
      exact List.mem_cons_self ..
    · simp only [findCodeFor] at h
      rw [if_neg hp] at h
      exact List.mem_cons_of_mem _ (ih h)

theorem firstFresh_mem (codes : List (String × String)) (cands : List String)
    (c : String) (h : firstFresh codes cands = some c) : c ∈ cands := by
  induction cands with
  | nil => simp [firstFresh] at h
  | cons c0 rest ih =>
    by_cases h0 : (dictGet? c0 codes).isSome
    · simp only [firstFresh] at h
      rw [if_pos h0] at h
      exact List.mem_cons_of_mem _ (ih h)
    · simp only [firstFresh] at h
      rw [if_neg h0] at h
      obtain rfl := Option.some.inj h
      exact List.mem_cons_self ..

/-- C4: a successful generateCode is idempotent — run again on the resulting
state (with any fresh random stream) it succeeds with the same share code and
leaves the state untouched — and it keeps the registry mapping at most one
live code to the user. -/
theorem generate_code_idempotent (u : String) (cands cands2 : List String)
    (s s' : State) (resp : GenResp)
    (h : generate_user_share_code u cands s = some (.ok resp, s'))
    (hcount : countCodesFor u s.share_codes ≤ 1) :
    (∃ resp2 : GenResp, generate_user_share_code u cands2 s' = some (.ok resp2, s') ∧
      resp2.share_code = resp.share_code) ∧
    countCodesFor u s'.share_codes ≤ 1 ∧
    ((∀ c ∈ cands, c.length = 6) → (∀ p ∈ s.share_codes, p.1.length = 6) →
      resp.share_code.length = 6) := by
  unfold generate_user_share_code at h
  by_cases hud : (dictGet? u s.user_data).isNone
  · rw [if_pos hud] at h
    simp at h
  · rw [if_neg hud] at h
    cases hfind : findCodeFor u s.share_codes with
    | some existing =>
      rw [hfind] at h
      simp only [Option.some.injEq, Prod.mk.injEq, Except.ok.injEq] at h
      obtain ⟨h1, h2⟩ := h
      subst h1
      subst h2
      refine ⟨⟨⟨existing, "Using existing share code"⟩, ?_, rfl⟩, hcount,
        fun _ hlen => hlen (existing, u) (findCodeFor_mem u existing _ hfind)⟩
      unfold generate_user_share_code
      rw [if_neg hud, hfind]
    | none =>
      rw [hfind] at h
      cases hfresh : firstFresh s.share_codes cands with
      | none =>
        rw [hfresh] at h
        simp at h
      | some code =>
        rw [hfresh] at h
        simp only [Option.some.injEq, Prod.mk.injEq, Except.ok.injEq] at h
        obtain ⟨h1, h2⟩ := h
        subst h1
        subst h2
        refine ⟨?_, ?_, fun hlen _ => hlen code (firstFresh_mem _ _ _ hfresh)⟩
        · refine ⟨⟨code, "Using existing share code"⟩, ?_, rfl⟩
          unfold generate_user_share_code
          rw [if_neg (by simpa using hud),
            show findCodeFor u (s.share_codes ++ [(code, u)]) = some code from
              findCodeFor_append_self u code s.share_codes hfind]
        · have h0 : countCodesFor u s.share_codes = 0 :=
            (findCodeFor_none_iff u s.share_codes).mp hfind
          rw [countCodesFor_append, h0]
          simp

/-- Witness for C4: generate a code for a concrete user with data, on a
registry holding one unrelated code, then observe idempotency. -/
theorem generate_code_idempotent_witness :
    (∃ resp2 : GenResp,
      generate_user_share_code "alice123456" []
          ⟨[("alice123456", ⟨96, "blue", "t0", "alice123456"⟩)],
            [("Q2W3E4", "bob9876543"), ("XK7M2P", "alice123456")], []⟩ =
        some (.ok resp2,
          ⟨[("alice123456", ⟨96, "blue", "t0", "alice123456"⟩)],
            [("Q2W3E4", "bob9876543"), ("XK7M2P", "alice123456")], []⟩) ∧
      resp2.share_code = "XK7M2P") ∧
    countCodesFor "alice123456"
      [("Q2W3E4", "bob9876543"), ("XK7M2P", "alice123456")] ≤ 1 ∧
    ("XK7M2P" : String).length = 6 := by
  have T := generate_code_idempotent "alice123456" ["XK7M2P"] []
    ⟨[("alice123456", ⟨96, "blue", "t0", "alice123456"⟩)],
      [("Q2W3E4", "bob9876543")], []⟩
    ⟨[("alice123456", ⟨96, "blue", "t0", "alice123456"⟩)],
      [("Q2W3E4", "bob9876543"), ("XK7M2P", "alice123456")], []⟩
    ⟨"XK7M2P", "Share code generated successfully"⟩ rfl (by decide)
  exact ⟨T.1, T.2.1, T.2.2 (by decide) (by decide)⟩

theorem dictGet?_mem (k : String) (v : α) (l : List (String × α))
    (h : dictGet? k l = some v) : (k, v) ∈ l := by
  induction l with
  | nil => simp [dictGet?] at h
  | cons p rest ih =>
    obtain ⟨k', v'⟩ := p
    by_cases hk : k' = k
    · simp only [dictGet?] at h
      rw [if_pos hk] at h
      obtain rfl := Option.some.inj h
      subst hk
      exact List.mem_cons_self ..
    · simp only [dictGet?] at h
      rw [if_neg hk] at h
      exact List.mem_cons_of_mem _ (ih h)

theorem mem_dictInsert (k : String) (v : α) (l : List (String × α)) (p : String × α)
    (h : p ∈ dictInsert k v l) : p = (k, v) ∨ p ∈ l := by
  induction l with
  | nil => simpa [dictInsert] using h
  | cons q rest ih =>
    obtain ⟨k', v'⟩ := q
    by_cases hk : k' = k
    · rw [show dictInsert k v ((k', v') :: rest) = (k, v) :: rest by
        simp only [dictInsert]; rw [if_pos hk]] at h
      rcases List.mem_cons.mp h with h1 | h1
      · exact Or.inl h1
      · exact Or.inr (List.mem_cons_of_mem _ h1)
    · rw [show dictInsert k v ((k', v') :: rest) = (k', v') :: dictInsert k v rest by
        simp only [dictInsert]; rw [if_neg hk]] at h
      rcases List.mem_cons.mp h with h1 | h1
      · exact Or.inr (h1 ▸ List.mem_cons_self ..)
      · rcases ih h1 with h2 | h2
        · exact Or.inl h2
        · exact Or.inr (List.mem_cons_of_mem _ h2)

theorem dictInsert_eq_self (k : String) (v : α) (l : List (String × α))
    (h : dictGet? k l = some v) : dictInsert k v l = l := by
  induction l with
  | nil => simp [dictGet?] at h
  | cons q rest ih =>
    obtain ⟨k', v'⟩ := q
    by_cases hk : k' = k
    · simp only [dictGet?] at h
      rw [if_pos hk] at h
      obtain rfl := Option.some.inj h
      simp only [dictInsert]
      rw [if_pos hk, hk]
    · simp only [dictGet?] at h
      rw [if_neg hk] at h
      simp only [dictInsert]
      rw [if_neg hk, ih h]

theorem store_stamina_effects (d : StaminaData) (ts : String) (s : State) :
    (store_stamina d ts s).2.share_codes = s.share_codes ∧
    (store_stamina d ts s).2.professional_accounts = s.professional_accounts ∧
    (∀ p ∈ (store_stamina d ts s).2.user_data,
      p ∈ s.user_data ∨ is_valid_user_id p.1 = true) := by
  unfold store_stamina
  by_cases hv : is_valid_user_id d.userID = true
  · rw [if_neg (by simp [hv])]
    by_cases hr : 0 ≤ d.staminaScore ∧ d.staminaScore ≤ 100
    · rw [if_neg (by simp [hr])]
      refine ⟨rfl, rfl, fun p hp => ?_⟩
      rcases mem_dictInsert _ _ _ _ hp with h1 | h1
      · exact Or.inr (by rw [h1]; exact hv)
      · exact Or.inl h1
    · rw [if_pos (by simp [hr])]
      exact ⟨rfl, rfl, fun p hp => Or.inl hp⟩
  · rw [if_pos (by simp [hv])]
    exact ⟨rfl, rfl, fun p hp => Or.inl hp⟩

theorem generate_effects (u : String) (cands : List String) (s s' : State)
    (r : Except HErr GenResp)
    (h : generate_user_share_code u cands s = some (r, s')) :
    s'.user_data = s.user_data ∧
    s'.professional_accounts = s.professional_accounts ∧
    (∀ q ∈ s'.share_codes, q ∈ s.share_codes ∨
      (q.2 = u ∧ ∃ v, dictGet? u s.user_data = some v)) := by
  unfold generate_user_share_code at h
  by_cases hud : (dictGet? u s.user_data).isNone
  · rw [if_pos hud] at h
    simp only [Option.some.injEq, Prod.mk.injEq] at h
    rw [← h.2]
    exact ⟨rfl, rfl, fun q hq => Or.inl hq⟩
  · rw [if_neg hud] at h
    obtain ⟨v, hv⟩ : ∃ v, dictGet? u s.user_data = some v := by
      cases hvv : dictGet? u s.user_data with
      | none => rw [hvv] at hud; simp at hud
      | some v => exact ⟨v, rfl⟩
    cases hfind : findCodeFor u s.share_codes with
    | some existing =>
      rw [hfind] at h
      simp only [Option.some.injEq, Prod.mk.injEq] at h
      rw [← h.2]
      exact ⟨rfl, rfl, fun q hq => Or.inl hq⟩
    | none =>
      rw [hfind] at h
      cases hfresh : firstFresh s.share_codes cands with
      | none => rw [hfresh] at h; simp at h
      | some code =>
        rw [hfresh] at h
        simp only [Option.some.injEq, Prod.mk.injEq] at h
        rw [← h.2]
        refine ⟨rfl, rfl, fun q hq => ?_⟩
        rcases List.mem_append.mp hq with h1 | h1
        · exact Or.inl h1
        · simp only [List.mem_singleton] at h1
          exact Or.inr ⟨by rw [h1], v, hv⟩

theorem redeem_effects (code pid : String) (s : State) :
    (redeem_share_code code pid s).2.user_data = s.user_data ∧
    (redeem_share_code code pid s).2.share_codes = s.share_codes ∧
    (∀ pa ∈ (redeem_share_code code pid s).2.professional_accounts,
      pa ∈ s.professional_accounts ∨
      (∃ a0 : ProfAccount,
        (dictGet? pid s.professional_accounts = some a0 ∨
          a0 = ⟨[], "starter", 10⟩) ∧
        (pa.2 = a0 ∨ (∃ u, dictGet? code s.share_codes = some u ∧
          pa.2.clients = a0.clients ++ [u] ∧
          pa.2.max_clients = a0.max_clients ∧
          (a0.clients.length : Int) < a0.max_clients)))) := by
  unfold redeem_share_code
  cases hc : dictGet? code s.share_codes with
  | none => exact ⟨rfl, rfl, fun pa hpa => Or.inl hpa⟩
  | some u =>
    simp only
    have ha0 : (dictGet? pid s.professional_accounts = some
        ((dictGet? pid s.professional_accounts).getD ⟨[], "starter", 10⟩)) ∨
        ((dictGet? pid s.professional_accounts).getD ⟨[], "starter", 10⟩ =
          (⟨[], "starter", 10⟩ : ProfAccount)) := by
      cases hg : dictGet? pid s.professional_accounts with
      | none => exact Or.inr rfl
      | some a => exact Or.inl rfl
    by_cases hmem : u ∈ ((dictGet? pid s.professional_accounts).getD
        ⟨[], "starter", 10⟩).clients
    · rw [if_pos hmem]
      refine ⟨rfl, rfl, fun pa hpa => ?_⟩
      rcases mem_dictInsert _ _ _ _ hpa with h1 | h1
      · exact Or.inr ⟨_, ha0, Or.inl (by rw [h1])⟩
      · exact Or.inl h1
    · rw [if_neg hmem]
      by_cases hq : ((dictGet? pid s.professional_accounts).getD
          ⟨[], "starter", 10⟩).max_clients ≤
          (((dictGet? pid s.professional_accounts).getD
            ⟨[], "starter", 10⟩).clients.length : Int)
      · rw [if_pos hq]
        refine ⟨rfl, rfl, fun pa hpa => ?_⟩
        rcases mem_dictInsert _ _ _ _ hpa with h1 | h1
        · exact Or.inr ⟨_, ha0, Or.inl (by rw [h1])⟩
        · exact Or.inl h1
      · rw [if_neg hq]
        refine ⟨rfl, rfl, fun pa hpa => ?_⟩
        rcases mem_dictInsert _ _ _ _ hpa with h1 | h1
        · exact Or.inr ⟨_, ha0, Or.inr ⟨u, rfl, by rw [h1], by rw [h1], by omega⟩⟩
        · exact Or.inl h1

theorem dash_foldl (s : State) (clients : List String) (acc : List ClientRow) :
    clients.foldl (dash_step s) acc =
      acc ++ clients.filterMap
        (fun cid => (dictGet? cid s.user_data).map (render_row cid)) := by
  induction clients generalizing acc with
  | nil => simp
  | cons c rest ih =>
    cases hc : dictGet? c s.user_data with
    | none => simp [List.foldl_cons, dash_step, hc, ih, List.filterMap_cons]
    | some d =>
      simp [List.foldl_cons, dash_step, hc, ih, List.filterMap_cons, render_row]

theorem dash_rows_length (s : State) (clients : List String) :
    (clients.filterMap
      (fun cid => (dictGet? cid s.user_data).map (render_row cid))).length =
    (clients.filter (fun cid => (dictGet? cid s.user_data).isSome)).length := by
  induction clients with
  | nil => simp
  | cons c rest ih =>
    cases hc : dictGet? c s.user_data with
    | none => simp [List.filterMap_cons, List.filter_cons, hc, ih]
    | some d => simp [List.filterMap_cons, List.filter_cons, hc, ih]

/-- C5: through every reachable state the length of each professional clientList
stays at most its maxClients, and a redemption that would add one more distinct
client to a full account fails with the 403 quota error reporting the limit and
leaves the state — in particular the clientList — unchanged. -/
theorem clientList_quota (s : State) :
    (Reachable s → ∀ pa ∈ s.professional_accounts,
      (pa.2.clients.length : Int) ≤ pa.2.max_clients) ∧
    (∀ code pid u a, dictGet? code s.share_codes = some u →
      dictGet? pid s.professional_accounts = some a →
      u ∉ a.clients → a.max_clients ≤ (a.clients.length : Int) →
      redeem_share_code code pid s = (.error ⟨403, limitDetail a.max_clients⟩, s)) := by
  constructor
  · intro h
    induction h with
    | init => intro pa hpa; simp [emptyState] at hpa
    | store d ts s1 s1' r _ heq ih =>
      intro pa hpa
      have h2 : s1'.professional_accounts = s1.professional_accounts := by
        rw [show s1' = (store_stamina d ts s1).2 by rw [heq]]
        exact (store_stamina_effects d ts s1).2.1
      exact ih pa (h2 ▸ hpa)
    | gen u cands s1 s1' r _ heq ih =>
      intro pa hpa
      have h2 : s1'.professional_accounts = s1.professional_accounts :=
        (generate_effects u cands s1 s1' r heq).2.1
      exact ih pa (h2 ▸ hpa)
    | redeem code pid s1 s1' r _ heq ih =>
      intro pa hpa
      have h2 := (redeem_effects code pid s1).2.2 pa
        (by rw [show s1' = (redeem_share_code code pid s1).2 by rw [heq]] at hpa
            exact hpa)
      rcases h2 with h1 | ⟨a0, ha0, hcase⟩
      · exact ih pa h1
      · have hinv0 : (a0.clients.length : Int) ≤ a0.max_clients := by
          rcases ha0 with h3 | h3
          · exact ih (pid, a0) (dictGet?_mem _ _ _ h3)
          · rw [h3]; simp
        rcases hcase with h3 | ⟨u2, _, h4, h5, h6⟩
        · rw [h3]; exact hinv0
        · rw [h4, h5]
          simp only [List.length_append, List.length_singleton]
          omega
  · intro code pid u a hc ha hmem hfull
    unfold redeem_share_code
    rw [hc]
    simp only [ha, Option.getD_some]
    rw [if_neg hmem, if_pos hfull]
    rw [show dictInsert pid a s.professional_accounts = s.professional_accounts from
      dictInsert_eq_self pid a _ ha]

/-- Witness for C5: the inequality at a state reached by store, generate and
redeem, and a concrete full account (10 of 10 clients) rejecting an 11th
distinct client with state unchanged. -/
theorem clientList_quota_witness :
    ((["alice123456"] : List String).length : Int) ≤ 10 ∧
    redeem_share_code "ABC123" "pro123"
        ⟨[("alice123456", ⟨96, "blue", "t0", "alice123456"⟩)],
          [("ABC123", "alice123456")],
          [("pro123", ⟨["u01", "u02", "u03", "u04", "u05", "u06", "u07", "u08",
            "u09", "u10"], "starter", 10⟩)]⟩ =
      (.error ⟨403, limitDetail 10⟩,
        ⟨[("alice123456", ⟨96, "blue", "t0", "alice123456"⟩)],
          [("ABC123", "alice123456")],
          [("pro123", ⟨["u01", "u02", "u03", "u04", "u05", "u06", "u07", "u08",
            "u09", "u10"], "starter", 10⟩)]⟩) := by
  constructor
  · exact (clientList_quota
      ⟨[("alice123456", ⟨96, "blue", "t0", "alice123456"⟩)],
        [("ABC123", "alice123456")],
        [("pro123", ⟨["alice123456"], "starter", 10⟩)]⟩).1
      (Reachable.redeem "ABC123" "pro123"
        ⟨[("alice123456", ⟨96, "blue", "t0", "alice123456"⟩)],
          [("ABC123", "alice123456")], []⟩ _ _
        (Reachable.gen "alice123456" ["ABC123"]
          ⟨[("alice123456", ⟨96, "blue", "t0", "alice123456"⟩)], [], []⟩ _ _
          (Reachable.store ⟨96, "alice123456"⟩ "t0" emptyState _ _
            Reachable.init rfl) rfl) rfl)
      ("pro123", ⟨["alice123456"], "starter", 10⟩) (by decide)
  · exact (clientList_quota _).2 "ABC123" "pro123" "alice123456"
      ⟨["u01", "u02", "u03", "u04", "u05", "u06", "u07", "u08", "u09", "u10"],
        "starter", 10⟩ rfl rfl (by decide) (by decide)

/-- C6: redeeming a code that is not in the share-code registry fails with the
404 invalid-code error and leaves the whole state unchanged — in particular no
ProfessionalAccount is created for the professionalID. -/
theorem redeem_invalid_code (code pid : String) (s : State)
    (h : dictGet? code s.share_codes = none) :
    redeem_share_code code pid s =
      (.error ⟨404, "Invalid share code. Please check the code and try again."⟩, s) := by
  unfold redeem_share_code
  rw [h]

/-- Witness for C6: an unknown code against the empty registry. -/
theorem redeem_invalid_code_witness :
    redeem_share_code "ZZZZZZ" "pro123" emptyState =
      (.error ⟨404, "Invalid share code. Please check the code and try again."⟩,
        emptyState) :=
  redeem_invalid_code "ZZZZZZ" "pro123" emptyState rfl

/-- Counterexample for C7: the response for a professional with no account does
not carry a maxClients field — the unknown-professional branch of the handler
answers only clients, tier and count, so the claimed uniform shape
clients-tier-maxClients fails at this concrete input. -/
theorem dashboard_shape_cex :
    ¬ ((get_professional_dashboard "pro123" emptyState).1.max_clients.isSome = true) := by
  decide

/-- C7 (amended): getDashboard answers clients, tier and count for every
professionalID, with maxClients additionally present exactly when the account
exists; for a professional with no account it returns an empty client list,
tier "none" and count 0, and this is a plain response, not an error. -/
theorem dashboard_defaults (pid : String) (s : State) :
    (dictGet? pid s.professional_accounts = none →
      (get_professional_dashboard pid s).1 = ⟨[], "none", 0, none⟩) ∧
    (∀ a, dictGet? pid s.professional_accounts = some a →
      (get_professional_dashboard pid s).1.subscription_tier = a.subscription_tier ∧
      (get_professional_dashboard pid s).1.max_clients = some a.max_clients) := by
  constructor
  · intro h
    simp only [get_professional_dashboard, h]
  · intro a h
    simp [get_professional_dashboard, h]

/-- Witness for C7: empty defaults for an unknown professional, and tier and
maxClients surfaced for a concrete account. -/
theorem dashboard_defaults_witness :
    (get_professional_dashboard "pro123" emptyState).1 = ⟨[], "none", 0, none⟩ ∧
    (get_professional_dashboard "pro123"
        ⟨[], [], [("pro123", ⟨["u01"], "starter", 10⟩)]⟩).1.subscription_tier
      = "starter" ∧
    (get_professional_dashboard "pro123"
        ⟨[], [], [("pro123", ⟨["u01"], "starter", 10⟩)]⟩).1.max_clients = some 10 :=
  ⟨(dashboard_defaults "pro123" emptyState).1 rfl,
   ((dashboard_defaults "pro123"
      ⟨[], [], [("pro123", ⟨["u01"], "starter", 10⟩)]⟩).2
      ⟨["u01"], "starter", 10⟩ rfl).1,
   ((dashboard_defaults "pro123"
      ⟨[], [], [("pro123", ⟨["u01"], "starter", 10⟩)]⟩).2
      ⟨["u01"], "starter", 10⟩ rfl).2⟩

/-- C8: getDashboard never mutates any store — the state it hands back is
exactly its input — and the rendered rows are precisely those clients of the
account that currently have a stored reading, so a clientList member with no
reading is omitted from the rows while remaining in the clientList. -/
theorem dashboard_frame (pid : String) (s : State) :
    (get_professional_dashboard pid s).2 = s ∧
    (∀ a, dictGet? pid s.professional_accounts = some a →
      (get_professional_dashboard pid s).1.clients =
        a.clients.filterMap
          (fun cid => (dictGet? cid s.user_data).map (render_row cid))) := by
  constructor
  · cases h : dictGet? pid s.professional_accounts with
    | none => simp only [get_professional_dashboard, h]
    | some a => simp only [get_professional_dashboard, h]
  · intro a h
    simp only [get_professional_dashboard, h]
    exact dash_foldl s a.clients []

/-- Witness for C8: a concrete account owning a client with a reading and one
without; the state comes back untouched and only the client with data is
rendered, while the clientList still holds both. -/
theorem dashboard_frame_witness :
    (get_professional_dashboard "pro123"
        ⟨[("alice123456", ⟨96, "blue", "t0", "alice123456"⟩)], [],
          [("pro123", ⟨["alice123456", "ghostuser1"], "starter", 10⟩)]⟩).2 =
      ⟨[("alice123456", ⟨96, "blue", "t0", "alice123456"⟩)], [],
        [("pro123", ⟨["alice123456", "ghostuser1"], "starter", 10⟩)]⟩ ∧
    (get_professional_dashboard "pro123"
        ⟨[("alice123456", ⟨96, "blue", "t0", "alice123456"⟩)], [],
          [("pro123", ⟨["alice123456", "ghostuser1"], "starter", 10⟩)]⟩).1.clients =
      (["alice123456", "ghostuser1"] : List String).filterMap
        (fun cid => (dictGet? cid
          [("alice123456", ⟨96, "blue", "t0", "alice123456"⟩)]).map (render_row cid)) :=
  ⟨(dashboard_frame "pro123"
      ⟨[("alice123456", ⟨96, "blue", "t0", "alice123456"⟩)], [],
        [("pro123", ⟨["alice123456", "ghostuser1"], "starter", 10⟩)]⟩).1,
   (dashboard_frame "pro123"
      ⟨[("alice123456", ⟨96, "blue", "t0", "alice123456"⟩)], [],
        [("pro123", ⟨["alice123456", "ghostuser1"], "starter", 10⟩)]⟩).2
      ⟨["alice123456", "ghostuser1"], "starter", 10⟩ rfl⟩

/-- Counterexample for C9: the source validator's `$` also asserts before a
single trailing newline, so POST /stamina accepts and stores the key
"abcde\n" — a reachable user-store key containing a character outside
alphanumerics plus dot, underscore and hyphen, refuting the claimed
character-set invariant on the program. -/
theorem user_ids_charset_cex :
    Reachable ⟨[("abcde\n", ⟨96, "blue", "t0", "abcde\n"⟩)], [], []⟩ ∧
    ¬ ((("abcde\n" : String).toList.all isUserIdChar) = true) :=
  ⟨Reachable.store ⟨96, "abcde\n"⟩ "t0" emptyState _ _ Reachable.init rfl,
   by decide⟩

/-- C9 (amended): in every reachable state, every userID keyed in the user
store passes the source's format validator — after stripping at most one
trailing newline its characters are drawn from alphanumerics plus dot,
underscore and hyphen, and the full string is longer than 5 — because
POST /stamina, the only write path, validates before storing; consequently the
userIDs the share-code registry maps to and the clientList members the
dashboard walks pass it too. -/
theorem user_ids_valid (s : State) (h : Reachable s) :
    (∀ p ∈ s.user_data, is_valid_user_id p.1 = true) ∧
    (∀ q ∈ s.share_codes, is_valid_user_id q.2 = true) ∧
    (∀ pa ∈ s.professional_accounts, ∀ u ∈ pa.2.clients,
      is_valid_user_id u = true) := by
  induction h with
  | init =>
    refine ⟨?_, ?_, ?_⟩ <;> intro x hx <;> simp [emptyState] at hx
  | store d ts s1 s1' r _ heq ih =>
    have hs : s1' = (store_stamina d ts s1).2 := by rw [heq]
    obtain ⟨e1, e2, e3⟩ := store_stamina_effects d ts s1
    refine ⟨?_, ?_, ?_⟩
    · intro p hp
      rw [hs] at hp
      rcases e3 p hp with h1 | h1
      · exact ih.1 p h1
      · exact h1
    · intro q hq
      rw [hs, e1] at hq
      exact ih.2.1 q hq
    · intro pa hpa
      rw [hs, e2] at hpa
      exact ih.2.2 pa hpa
  | gen u cands s1 s1' r _ heq ih =>
    obtain ⟨e1, e2, e3⟩ := generate_effects u cands s1 s1' r heq
    refine ⟨fun p hp => ih.1 p (e1 ▸ hp), ?_, fun pa hpa => ih.2.2 pa (e2 ▸ hpa)⟩
    intro q hq
    rcases e3 q hq with h1 | ⟨hq2, v, hv⟩
    · exact ih.2.1 q h1
    · rw [hq2]
      exact ih.1 (u, v) (dictGet?_mem _ _ _ hv)
  | redeem code pid s1 s1' r _ heq ih =>
    have hs : s1' = (redeem_share_code code pid s1).2 := by rw [heq]
    obtain ⟨e1, e2, e3⟩ := redeem_effects code pid s1
    refine ⟨fun p hp => ih.1 p (by rw [hs, e1] at hp; exact hp),
      fun q hq => ih.2.1 q (by rw [hs, e2] at hq; exact hq), ?_⟩
    intro pa hpa
    rw [hs] at hpa
    rcases e3 pa hpa with h1 | ⟨a0, ha0, hcase⟩
    · exact ih.2.2 pa h1
    · have ha0v : ∀ u2 ∈ a0.clients, is_valid_user_id u2 = true := by
        rcases ha0 with h3 | h3
        · exact ih.2.2 (pid, a0) (dictGet?_mem _ _ _ h3)
        · rw [h3]
          intro u2 hu2
          simp at hu2
      rcases hcase with h3 | ⟨u2, hu2, h4, _, _⟩
      · intro x hx
        rw [h3] at hx
        exact ha0v x hx
      · intro x hx
        rw [h4] at hx
        rcases List.mem_append.mp hx with h5 | h5
        · exact ha0v x h5
        · simp only [List.mem_singleton] at h5
          subst h5
          exact ih.2.1 (code, x) (dictGet?_mem _ _ _ hu2)

/-- Witness for C9: the key stored by a concrete POST /stamina on the empty
state is format-valid, via the reachable-state invariant. -/
theorem user_ids_valid_witness : is_valid_user_id "alice123456" = true :=
  (user_ids_valid
    ⟨[("alice123456", ⟨96, "blue", "t0", "alice123456"⟩)], [], []⟩
    (Reachable.store ⟨96, "alice123456"⟩ "t0" emptyState _ _
      Reachable.init rfl)).1
    ("alice123456", ⟨96, "blue", "t0", "alice123456"⟩) (by decide)

/-- C10: the dashboard client_count is the number of rendered rows — clients of
the account that currently have a stored reading — not the clientList length;
at a concrete state where an enrolled client has no stored reading it is
strictly below the count the preceding redemption reported (1 enrolled, 0
rendered). -/
theorem dashboard_count :
    (∀ pid s a, dictGet? pid s.professional_accounts = some a →
      (get_professional_dashboard pid s).1.client_count =
        (a.clients.filter (fun cid => (dictGet? cid s.user_data).isSome)).length) ∧
    redeem_share_code "ABC123" "pro123"
        ⟨[("alice123456", ⟨96, "blue", "t0", "alice123456"⟩)],
          [("ABC123", "alice123456")], []⟩ =
      (.ok ⟨"success", "Client added successfully", 1, some 10⟩,
        ⟨[("alice123456", ⟨96, "blue", "t0", "alice123456"⟩)],
          [("ABC123", "alice123456")],
          [("pro123", ⟨["alice123456"], "starter", 10⟩)]⟩) ∧
    (get_professional_dashboard "pro123"
        ⟨[], [("ABC123", "alice123456")],
          [("pro123", ⟨["alice123456"], "starter", 10⟩)]⟩).1.client_count = 0 ∧
    (dictGet? "pro123"
        (⟨[], [("ABC123", "alice123456")],
          [("pro123", ⟨["alice123456"], "starter", 10⟩)]⟩ : State).professional_accounts).map
      (fun a => a.clients.length) = some 1 := by
  refine ⟨?_, rfl, rfl, rfl⟩
  intro pid s a ha
  simp only [get_professional_dashboard, ha]
  rw [dash_foldl s a.clients []]
  simp only [List.nil_append]
  exact dash_rows_length s a.clients

/-- Witness for C10: the general count characterization evaluated at the
concrete state whose one enrolled client has no stored reading. -/
theorem dashboard_count_witness :
    (get_professional_dashboard "pro123"
        ⟨[], [("ABC123", "alice123456")],
          [("pro123", ⟨["alice123456"], "starter", 10⟩)]⟩).1.client_count =
      ((["alice123456"] : List String).filter
        (fun cid => (dictGet? cid ([] : List (String × Reading))).isSome)).length :=
  dashboard_count.1 "pro123"
    ⟨[], [("ABC123", "alice123456")],
      [("pro123", ⟨["alice123456"], "starter", 10⟩)]⟩
    ⟨["alice123456"], "starter", 10⟩ rfl

end StaminaAPI
